import Mathlib

/-
Verification of the Workspace Optimizer Bot pipeline
(src/workspace-optimizer-bot.py).

The program is a four-stage sequential agent pipeline: a posture analyzer
(vision model on the uploaded image), a risk evaluator (runs on the
posture analyzer's output), a fix advisor (runs on the posture analyzer's
output plus the two user preferences), and a product finder (runs, as
written on line 158 of the source, on the very same prompt string that was
given to the fix advisor).  The four outputs are concatenated with fixed
separators into a markdown report.

The external model calls are modelled as an oracle: a pure function from
(agent, prompt, attached images) to the returned text.  The embedding of
`generate_workspace_report` threads that oracle exactly the way the source
threads its `Agent.run` calls, and additionally records the trace of
external calls, in order, so that temporal and data-flow claims can be
stated about it.
-/

namespace WorkspaceOptimizer

/-- Bytes of an uploaded image file (the source writes `uploaded_image.getvalue()`
to a temporary file and passes that file to the vision agent; we identify the
temporary file with its byte content). -/
abbrev ImageBytes := List Nat

/-- The four prompt-configured agents created inside `generate_workspace_report`:
"Posture & Setup Analyzer", "Ergonomic Risk Evaluator", "Fix Advisor",
"Workspace Product Finder". -/
inductive AgentName where
  | postureAnalyzer
  | riskEvaluator
  | fixAdvisor
  | productFinder
deriving DecidableEq

/-- One external model invocation: which agent ran, the prompt string passed to
`Agent.run`, and the images attached to the call. -/
structure AgentCall where
  agent : AgentName
  prompt : String
  images : List ImageBytes
deriving DecidableEq

/-- The record returned by `render_workspace_setup_preferences` (source lines
63-67): the uploaded image and the two preference dropdown values. -/
structure UserPreferences where
  uploaded_image : ImageBytes
  focus_area : String
  improvement_goal : String
deriving DecidableEq

/-- The external model/search collaborator: given the agent configuration, the
prompt text and the attached images, it returns the response text.  The real
collaborators are hosted APIs; every claim is stated for an arbitrary oracle. -/
abbrev Oracle := AgentName → String → List ImageBytes → String

/-- The literal prompt passed to the posture analyzer (source line 95). -/
def posture_prompt : String := "Analyze the desk image and report ergonomic issues."

/-- The constant closing remark `summary_comment` (source lines 162-165). -/
def summary_comment : String :=
  "### 💬 Ergonomic Summary\n\n> “Your workspace has great potential. With just a few adjustments, you can improve posture, reduce fatigue, and make your setup truly ergonomic.”\n"

/-- The report assembly `final_report` (source lines 168-175): header, the four
stage outputs each followed by the separator, then the closing remark. -/
def final_report (issue_s risk_s fix_s product_s : String) : String :=
  "## 🪑 Workspace Optimization Report\n\n" ++
  issue_s ++ "\n\n---\n\n" ++
  risk_s ++ "\n\n---\n\n" ++
  fix_s ++ "\n\n---\n\n" ++
  product_s ++ "\n\n---\n\n" ++
  summary_comment

/-- Result of one execution of `generate_workspace_report`: the assembled
report, the ordered trace of external agent calls made during the execution,
and the preferences record as it stands after the execution (the source only
reads the dict, so the embedding passes it through). -/
structure PipelineResult where
  report : String
  trace : List AgentCall
  prefs_after : UserPreferences
deriving DecidableEq

/-- Embedding of `generate_workspace_report` (source lines 69-177), with the
external `Agent.run` calls given by the oracle `run`.  The four calls are made
strictly in sequence: analyzer on the image, evaluator on `issue_section`,
advisor on `fix_prompt`, and — exactly as in source line 158 — the product
finder on `fix_prompt` again (not on `fix_section`). -/
def generate_workspace_report (run : Oracle) (prefs : UserPreferences) : PipelineResult :=
  let image_path := prefs.uploaded_image
  let focus_area := prefs.focus_area
  let improvement_goal := prefs.improvement_goal
  let issue_s := run AgentName.postureAnalyzer posture_prompt [image_path]
  let risk_s := run AgentName.riskEvaluator issue_s []
  let fix_p := issue_s ++ "\n\nFocus: " ++ focus_area ++ "\nGoal: " ++ improvement_goal
  let fix_s := run AgentName.fixAdvisor fix_p []
  let product_s := run AgentName.productFinder fix_p []
  { report := final_report issue_s risk_s fix_s product_s
    trace := [⟨AgentName.postureAnalyzer, posture_prompt, [image_path]⟩,
              ⟨AgentName.riskEvaluator, issue_s, []⟩,
              ⟨AgentName.fixAdvisor, fix_p, []⟩,
              ⟨AgentName.productFinder, fix_p, []⟩]
    prefs_after := prefs }

/-- The `issue_section` produced by the posture analyzer (source line 98). -/
def issue_section (run : Oracle) (prefs : UserPreferences) : String :=
  run AgentName.postureAnalyzer posture_prompt [prefs.uploaded_image]

/-- The `risk_section` produced by the risk evaluator (source lines 114-115). -/
def risk_section (run : Oracle) (prefs : UserPreferences) : String :=
  run AgentName.riskEvaluator (issue_section run prefs) []

/-- The `fix_prompt` string (source line 132): issue section plus the two
preference values. -/
def fix_prompt (run : Oracle) (prefs : UserPreferences) : String :=
  issue_section run prefs ++ "\n\nFocus: " ++ prefs.focus_area ++ "\nGoal: " ++ prefs.improvement_goal

/-- The `fix_section` produced by the fix advisor (source lines 133-134). -/
def fix_section (run : Oracle) (prefs : UserPreferences) : String :=
  run AgentName.fixAdvisor (fix_prompt run prefs) []

/-- The `product_section` produced by the product finder (source lines
158-159); note the source runs it on `fix_prompt`. -/
def product_section (run : Oracle) (prefs : UserPreferences) : String :=
  run AgentName.productFinder (fix_prompt run prefs) []

/-- The i-th external call of an execution (0 = posture analyzer, 1 = risk
evaluator, 2 = fix advisor, 3 = product finder). -/
def call_at (r : PipelineResult) (i : Nat) : AgentCall :=
  r.trace.getD i ⟨AgentName.postureAnalyzer, "", []⟩

/-- Validation message for a missing OpenAI key (source line 216). -/
def openai_key_error : String := "Please provide your OpenAI API key in the sidebar."

/-- Validation message for a missing SerpAPI key (source line 218). -/
def serp_key_error : String := "Please provide your SerpAPI key in the sidebar."

/-- Validation message for a missing uploaded image (source line 220). -/
def image_error : String := "Please upload a workspace photo to proceed."

/-- Outcome of the submit-button handler: the error message shown (if any),
the generated report (if any), and the list of external calls made. -/
structure SubmitResult where
  error : Option String
  report : Option String
  calls : List AgentCall
deriving DecidableEq

/-- Embedding of the submit-button handler in `main` (source lines 214-227):
the if/elif/elif/else chain checking the OpenAI key, then the SerpAPI key,
then the uploaded image, and only in the final else running the pipeline. -/
def submit_action (has_openai_key has_serp_key : Bool) (run : Oracle)
    (uploaded : Option ImageBytes) (focus_area improvement_goal : String) : SubmitResult :=
  if !has_openai_key then ⟨some openai_key_error, none, []⟩
  else if !has_serp_key then ⟨some serp_key_error, none, []⟩
  else match uploaded with
    | none => ⟨some image_error, none, []⟩
    | some bytes =>
      let r := generate_workspace_report run ⟨bytes, focus_area, improvement_goal⟩
      ⟨none, some r.report, r.trace⟩

/-- Boolean substring test: `needle` occurs contiguously in `hay`. -/
def strContains (hay needle : String) : Bool :=
  (List.range (hay.data.length + 1)).any fun i =>
    (hay.data.drop i).take needle.data.length == needle.data

/-- Boolean test that `s` starts with `p`. -/
def strBeginsWith (s p : String) : Bool :=
  s.data.take p.data.length == p.data

/-- A concrete stub oracle used as witness material: each agent returns a
distinct marker string, independent of its prompt. -/
def stubOracle : Oracle := fun a _ _ =>
  match a with
  | AgentName.postureAnalyzer => "ISSUES"
  | AgentName.riskEvaluator => "RISKS"
  | AgentName.fixAdvisor => "FIXPLAN"
  | AgentName.productFinder => "PRODUCTS"

/-- A second stub oracle that agrees with `stubOracle` on every agent except
the risk evaluator. -/
def stubOracle2 : Oracle := fun a p imgs =>
  match a with
  | AgentName.riskEvaluator => "OTHER-RISKS"
  | _ => stubOracle a p imgs

/-- A concrete preferences record used as witness material. -/
def stubPrefs : UserPreferences := ⟨[1, 2, 3], "Posture Correction", "Reduce Strain"⟩

/-- Helper: the assembled report of an execution is `final_report` applied to
the four stage sections. -/
theorem report_eq_final_report (run : Oracle) (prefs : UserPreferences) :
    (generate_workspace_report run prefs).report =
      final_report (issue_section run prefs) (risk_section run prefs)
        (fix_section run prefs) (product_section run prefs) := rfl

/-- Claim C1, counterexample: with the stub oracle and stub preferences, the
prompt passed to the product-finder agent (call 3 of the trace) does NOT
contain the `fix_section` text produced by the fix advisor — the source (line
158) runs the product finder on `fix_prompt`, not on the stage-4 output. -/
theorem product_prompt_omits_fix_section :
    strContains (call_at (generate_workspace_report stubOracle stubPrefs) 3).prompt
      (fix_section stubOracle stubPrefs) = false := by decide

/-- Claim C1, amended: in every execution, the prompt passed to the
product-finder agent is the `fix_prompt` string — the issue-detection output
plus the two user preference values — i.e. the same prompt the fix advisor
received, not the fix advisor's output. -/
theorem product_prompt_is_fix_prompt (run : Oracle) (prefs : UserPreferences) :
    (call_at (generate_workspace_report run prefs) 3).prompt =
      issue_section run prefs ++ "\n\nFocus: " ++ prefs.focus_area
        ++ "\nGoal: " ++ prefs.improvement_goal := rfl

/-- Claim C2: the assembled report equals the header followed by the four
stage outputs each followed by the separator and then the closing remark; the
closing remark begins with the Ergonomic Summary heading; and with stub stage
outputs A, B, C, D the report is exactly the literal string of the spec's
example. -/
theorem report_assembly_exact :
    (∀ s1 s2 s3 s4 : String,
      final_report s1 s2 s3 s4 =
        "## 🪑 Workspace Optimization Report\n\n" ++ s1 ++ "\n\n---\n\n" ++ s2
          ++ "\n\n---\n\n" ++ s3 ++ "\n\n---\n\n" ++ s4 ++ "\n\n---\n\n" ++ summary_comment) ∧
    strBeginsWith summary_comment "### 💬 Ergonomic Summary" = true ∧
    final_report "A" "B" "C" "D" =
      "## 🪑 Workspace Optimization Report\n\nA\n\n---\n\nB\n\n---\n\nC\n\n---\n\nD\n\n---\n\n### 💬 Ergonomic Summary\n\n> “Your workspace has great potential. With just a few adjustments, you can improve posture, reduce fatigue, and make your setup truly ergonomic.”\n" :=
  ⟨fun _ _ _ _ => rfl, by decide, rfl⟩

/-- Claim C3: when the OpenAI key, the SerpAPI key or the uploaded image is
missing, the submit handler makes no external call, produces no report, and
shows one of exactly the three validation messages. -/
theorem submit_validation_guards (has_openai_key has_serp_key : Bool) (run : Oracle)
    (uploaded : Option ImageBytes) (focus_area improvement_goal : String)
    (h : has_openai_key = false ∨ has_serp_key = false ∨ uploaded = none) :
    (submit_action has_openai_key has_serp_key run uploaded focus_area improvement_goal).calls
        = [] ∧
    (submit_action has_openai_key has_serp_key run uploaded focus_area improvement_goal).report
        = none ∧
    ∃ m, (submit_action has_openai_key has_serp_key run uploaded focus_area
            improvement_goal).error = some m ∧
      (m = openai_key_error ∨ m = serp_key_error ∨ m = image_error) := by
  rcases h with h | h | h
  · subst h
    exact ⟨rfl, rfl, openai_key_error, rfl, Or.inl rfl⟩
  · cases has_openai_key
    · exact ⟨rfl, rfl, openai_key_error, rfl, Or.inl rfl⟩
    · subst h
      exact ⟨rfl, rfl, serp_key_error, rfl, Or.inr (Or.inl rfl)⟩
  · cases has_openai_key
    · exact ⟨rfl, rfl, openai_key_error, rfl, Or.inl rfl⟩
    · cases has_serp_key
      · exact ⟨rfl, rfl, serp_key_error, rfl, Or.inr (Or.inl rfl)⟩
      · subst h
        exact ⟨rfl, rfl, image_error, rfl, Or.inr (Or.inr rfl)⟩

/-- Claim C3, witness: submitting with the OpenAI key missing (other inputs
present) makes no external call and shows a validation message. -/
theorem submit_validation_guards_witness :
    (submit_action false true stubOracle (some [1]) "Posture Correction"
        "Reduce Strain").calls = [] ∧
    (submit_action false true stubOracle (some [1]) "Posture Correction"
        "Reduce Strain").report = none ∧
    ∃ m, (submit_action false true stubOracle (some [1]) "Posture Correction"
            "Reduce Strain").error = some m ∧
      (m = openai_key_error ∨ m = serp_key_error ∨ m = image_error) :=
  submit_validation_guards false true stubOracle (some [1]) "Posture Correction"
    "Reduce Strain" (Or.inl rfl)

/-- Claim C4: the fix-advisor prompt (call 2 of the trace) is exactly the
issue-detection output plus the two preference values, and it is unchanged
under any change of the risk evaluator's behavior: two oracles that agree on
the posture analyzer give the fix advisor identical prompts. -/
theorem fix_advisor_prompt_from_issues_only (runA runB : Oracle) (prefs : UserPreferences)
    (h : ∀ p imgs, runA AgentName.postureAnalyzer p imgs
        = runB AgentName.postureAnalyzer p imgs) :
    (call_at (generate_workspace_report runA prefs) 2).prompt =
      issue_section runA prefs ++ "\n\nFocus: " ++ prefs.focus_area
        ++ "\nGoal: " ++ prefs.improvement_goal ∧
    (call_at (generate_workspace_report runA prefs) 2).prompt =
      (call_at (generate_workspace_report runB prefs) 2).prompt := by
  constructor
  · rfl
  · show fix_prompt runA prefs = fix_prompt runB prefs
    unfold fix_prompt issue_section
    rw [h]

/-- Claim C4, witness: the fix-advisor prompt is the same under `stubOracle`
and under `stubOracle2`, which differ only in the risk evaluator's output. -/
theorem fix_advisor_prompt_from_issues_only_witness :
    (call_at (generate_workspace_report stubOracle stubPrefs) 2).prompt =
      (call_at (generate_workspace_report stubOracle2 stubPrefs) 2).prompt :=
  (fix_advisor_prompt_from_issues_only stubOracle stubOracle2 stubPrefs
    (fun _ _ => rfl)).2

/-- Claim C5: report assembly is deterministic — two executions with equal
preferences and equal stage-output strings assemble equal reports. -/
theorem report_deterministic (runA runB : Oracle) (pA pB : UserPreferences)
    (hp : pA = pB)
    (h1 : issue_section runA pA = issue_section runB pB)
    (h2 : risk_section runA pA = risk_section runB pB)
    (h3 : fix_section runA pA = fix_section runB pB)
    (h4 : product_section runA pA = product_section runB pB) :
    (generate_workspace_report runA pA).report =
      (generate_workspace_report runB pB).report := by
  rw [report_eq_final_report, report_eq_final_report, h1, h2, h3, h4]

/-- Claim C5, witness: two identical executions assemble equal reports. -/
theorem report_deterministic_witness :
    (generate_workspace_report stubOracle stubPrefs).report =
      (generate_workspace_report stubOracle stubPrefs).report :=
  report_deterministic stubOracle stubOracle stubPrefs stubPrefs rfl rfl rfl rfl rfl

/-- Claim C6: every execution makes exactly four external calls, strictly in
the order posture analyzer, risk evaluator, fix advisor, product finder, each
agent exactly once. -/
theorem pipeline_agent_order (run : Oracle) (prefs : UserPreferences) :
    (generate_workspace_report run prefs).trace.map AgentCall.agent =
      [AgentName.postureAnalyzer, AgentName.riskEvaluator,
       AgentName.fixAdvisor, AgentName.productFinder] ∧
    ∀ a : AgentName,
      ((generate_workspace_report run prefs).trace.map AgentCall.agent).count a = 1 := by
  refine ⟨rfl, ?_⟩
  intro a
  cases a <;> rfl

/-- Claim C7: `generate_workspace_report` never writes to the preferences
record — the record after the execution equals the record passed in. -/
theorem prefs_unchanged (run : Oracle) (prefs : UserPreferences) :
    (generate_workspace_report run prefs).prefs_after = prefs := rfl

/-- Claim C8: validation precedence — a missing OpenAI key wins over
everything; with the OpenAI key present a missing SerpAPI key wins over a
missing image; the missing-image message appears only with both keys present. -/
theorem validation_precedence :
    (∀ (has_serp_key : Bool) (run : Oracle) (uploaded : Option ImageBytes)
        (focus_area improvement_goal : String),
      (submit_action false has_serp_key run uploaded focus_area improvement_goal).error
        = some openai_key_error) ∧
    (∀ (run : Oracle) (uploaded : Option ImageBytes) (focus_area improvement_goal : String),
      (submit_action true false run uploaded focus_area improvement_goal).error
        = some serp_key_error) ∧
    (∀ (run : Oracle) (focus_area improvement_goal : String),
      (submit_action true true run none focus_area improvement_goal).error
        = some image_error) :=
  ⟨fun _ _ _ _ _ => rfl, fun _ _ _ _ => rfl, fun _ _ _ => rfl⟩

/-- Claim C9: the inputs supplied to the posture analyzer (call 0) and the
risk evaluator (call 1) do not depend on the focus area or the improvement
goal — two executions differing only in those two fields give those agents
identical calls. -/
theorem early_calls_ignore_preferences (run : Oracle) (img : ImageBytes)
    (f1 g1 f2 g2 : String) :
    call_at (generate_workspace_report run ⟨img, f1, g1⟩) 0 =
      call_at (generate_workspace_report run ⟨img, f2, g2⟩) 0 ∧
    call_at (generate_workspace_report run ⟨img, f1, g1⟩) 1 =
      call_at (generate_workspace_report run ⟨img, f2, g2⟩) 1 :=
  ⟨rfl, rfl⟩

/-- Claim C10: the product finder (call 3) is run on exactly the same prompt
string as the fix advisor (call 2), in every execution. -/
theorem product_prompt_eq_fix_advisor_prompt (run : Oracle) (prefs : UserPreferences) :
    (call_at (generate_workspace_report run prefs) 3).prompt =
      (call_at (generate_workspace_report run prefs) 2).prompt := rfl

end WorkspaceOptimizer
